import Mathlib

/-
Shallow embedding of the cross-provider viewport synchronization engine of
the dmv2 repository (src/App.tsx and src/components/MapPane.tsx, primary
revision).  Numbers (latitude, longitude, zoom) are modelled as rationals;
time is modelled in milliseconds as a natural number; JavaScript timers are
modelled as explicit lists of pending fire times, fired by an explicit
advance-to-time function (all release callbacks are identical, so the firing
order among due timers is irrelevant).
-/

/-- Canonical viewport, from `MapState` in src/types.ts: latitude, longitude
and zoom on the canonical (Google) scale. -/
structure MapState where
  lat : ℚ
  lng : ℚ
  zoom : ℚ
deriving DecidableEq

/-- A coordinate pair, as held by `searchPos` in src/App.tsx. -/
structure Pos where
  lat : ℚ
  lng : ℚ
deriving DecidableEq

/-- Pane identity: the two panes of src/App.tsx. -/
inductive Side where
  | left
  | right
deriving DecidableEq

/-- Map provider kind, from `MapVendor` in src/types.ts. -/
inductive MapVendor where
  | google
  | kakao
  | naver
deriving DecidableEq

/-- Per-pane configuration, from `PaneConfig` in src/types.ts. -/
structure PaneConfig where
  type : MapVendor
  isSatellite : Bool
deriving DecidableEq

/-- The App-level synchronization state of src/App.tsx: the authority cell
`activeSyncRef.current`, the canonical viewport `globalState`, and the set of
pending 50 ms release timeouts scheduled by `handleStateChange` (each stored
as its absolute fire time). -/
structure SyncState where
  activeSync : Option Side
  globalState : MapState
  releaseTimers : List ℕ
deriving DecidableEq

/-- `handleStateChange` from src/App.tsx lines 47-55: an event from `source`
is accepted iff the authority cell is empty or already holds `source`; on
acceptance the cell is set to `source`, the canonical viewport is replaced,
and a release timeout is scheduled 50 ms from `now` (the previous timeouts
are NOT cleared).  The boolean records whether `setGlobalState` was called,
i.e. whether the change is broadcast to the panes. -/
def handleStateChange (now : ℕ) (st : SyncState) (newState : MapState)
    (source : Side) : SyncState × Bool :=
  if st.activeSync = none ∨ st.activeSync = some source then
    ({ activeSync := some source
       globalState := newState
       releaseTimers := (now + 50) :: st.releaseTimers }, true)
  else
    (st, false)

/-- Advance the event loop to time `t`: every pending release timeout with
fire time at most `t` runs its callback `activeSyncRef.current = null`
(src/App.tsx line 51) and is removed from the pending set. -/
def advanceTo (t : ℕ) (st : SyncState) : SyncState :=
  { st with
    activeSync :=
      if st.releaseTimers.any (fun d => decide (d ≤ t)) then none
      else st.activeSync
    releaseTimers := st.releaseTimers.filter (fun d => decide (t < d)) }

/-- A timed viewport-change event delivered to `handleStateChange`. -/
structure InputEvent where
  time : ℕ
  src : Side
  state : MapState
deriving DecidableEq

/-- Deliver one event: first fire every timer due at or before the event
time, then run `handleStateChange`. -/
def stepInput (st : SyncState) (e : InputEvent) : SyncState :=
  (handleStateChange e.time (advanceTo e.time st) e.state e.src).1

/-- Run a list of timed events through the engine. -/
def run (st : SyncState) : List InputEvent → SyncState
  | [] => st
  | e :: es => run (stepInput st e) es

/-- The initial App state of src/App.tsx: authority cell empty, canonical
viewport at the Seoul default, no pending timers. -/
def initSync : SyncState :=
  { activeSync := none
    globalState := { lat := 37.5665, lng := 126.9780, zoom := 13 }
    releaseTimers := [] }

/-- Invariant: whenever some pane holds authority, at least one release
timeout is pending. -/
def authTimer (st : SyncState) : Prop :=
  st.activeSync.isSome → st.releaseTimers ≠ []

/-
Pane-side model, from src/components/MapPane.tsx (primary revision).
A pane's widget is modelled by its canonical center and zoom (for the Kakao
provider the widget natively stores a level l, here represented by its
canonical equivalent kakaoToZoom l).  The pending 200 ms settle timeouts of
the programmatic-update effect are kept as absolute fire times, and the
SDK-availability poll interval as a boolean flag.
-/

/-- Per-pane mutable state: `mapRef.current` nullness, the `isDragging` and
`isProgrammaticUpdate` refs, the widget viewport, the `globalState` binding
captured by the listener closures, the search marker held by `markerRef`,
the pending settle timeouts of the update effect, and whether the SDK poll
interval is running.  `capturedGlobal` records the value of the
`globalState` prop at the render in which `setupMapListeners` ran: the
SDK-init effect has deps `[config.type]` only (src/components/MapPane.tsx
lines 66-107), so the registered `center_changed`/`zoom_changed` listeners
keep that closure and never see later canonical viewports until the
provider kind changes. -/
structure PaneState where
  mapInit : Bool
  isDragging : Bool
  isProgrammaticUpdate : Bool
  widget : MapState
  capturedGlobal : MapState
  marker : Option Pos
  settleTimers : List ℕ
  sdkPollActive : Bool
deriving DecidableEq

/-- The epsilon of `shouldUpdate` (src/components/MapPane.tsx line 277):
0.00001 degrees. -/
def epsilon : ℚ := 1 / 100000

/-- `zoomToKakao` (src/components/MapPane.tsx line 62): canonical zoom to
Kakao level, clamping 20 - z to the Kakao level range [1, 14]. -/
def zoomToKakao (z : ℚ) : ℚ := max 1 (min 14 (20 - z))

/-- `kakaoToZoom` (src/components/MapPane.tsx line 63): Kakao level to
canonical zoom, clamping 20 - l to [3, 20]. -/
def kakaoToZoom (l : ℚ) : ℚ := max 3 (min 20 (20 - l))

/-- `shouldUpdate` (src/components/MapPane.tsx lines 273-281): false while a
programmatic update is in flight, false when the event's coordinates are
within epsilon of the pane's `globalState` prop with equal zoom, true
otherwise. -/
def shouldUpdate (progFlag : Bool) (g : MapState)
    (newLat newLng newZoom : ℚ) : Bool :=
  if progFlag then false
  else if |newLat - g.lat| < epsilon ∧ |newLng - g.lng| < epsilon ∧
      newZoom = g.zoom then false
  else true

/-- The `handleUpdate` closure of `setupMapListeners`
(src/components/MapPane.tsx lines 286-321), parameterized over the
`globalState` value `g` the closure holds: on a widget center or zoom
change, read the widget's viewport and emit it through `onStateChange` iff
`shouldUpdate` allows it (for Kakao the emitted zoom is the canonical
equivalent of the widget level, which is how `widget.zoom` is represented
here).  `none` means no emission. -/
def handleUpdate (p : PaneState) (g : MapState) : Option MapState :=
  if shouldUpdate p.isProgrammaticUpdate g p.widget.lat p.widget.lng
      p.widget.zoom then some p.widget
  else none

/-- The listener actually registered on the widget: because
`setupMapListeners` runs only from the SDK-init effect (deps
`[config.type]`), the closure's `globalState` is the pane's
`capturedGlobal`, the canonical viewport of the map-init render — not the
current prop. -/
def installedHandleUpdate (p : PaneState) : Option MapState :=
  handleUpdate p p.capturedGlobal

/-- Hand a pane's optional emission to the App: `none` leaves the sync state
untouched and broadcasts nothing, `some v` goes through
`handleStateChange`. -/
def emitToApp (now : ℕ) (st : SyncState) (src : Side) :
    Option MapState → SyncState × Bool
  | none => (st, false)
  | some v => handleStateChange now st v src

/-- The provider-specific body of the programmatic update effect
(src/components/MapPane.tsx lines 348-360): Google and Naver set center and
zoom to the canonical values; Kakao sets the center only when it differs by
more than 0.000001 degrees and sets the widget level to
`zoomToKakao globalState.zoom` (whose canonical equivalent is
`kakaoToZoom (zoomToKakao globalState.zoom)`). -/
def applyViewport (vendor : MapVendor) (w : MapState) (g : MapState) :
    MapState :=
  match vendor with
  | MapVendor.google => { lat := g.lat, lng := g.lng, zoom := g.zoom }
  | MapVendor.kakao =>
      if |w.lat - g.lat| > 1 / 1000000 ∨ |w.lng - g.lng| > 1 / 1000000 then
        { lat := g.lat, lng := g.lng
          zoom := kakaoToZoom (zoomToKakao g.zoom) }
      else
        { lat := w.lat, lng := w.lng
          zoom := kakaoToZoom (zoomToKakao g.zoom) }
  | MapVendor.naver => { lat := g.lat, lng := g.lng, zoom := g.zoom }

/-- The programmatic update effect (src/components/MapPane.tsx lines
343-363): it bails out when the widget does not exist or the pane is inside
a drag span; otherwise it raises `isProgrammaticUpdate`, pushes the
canonical viewport into the widget, and schedules a 200 ms settle timeout
that will lower the flag.  The effect returns no cleanup, so the timeout is
only added, never cleared. -/
def updateEffect (vendor : MapVendor) (now : ℕ) (p : PaneState)
    (g : MapState) : PaneState :=
  if p.mapInit = false then p
  else if p.isDragging = true then p
  else
    { p with
      isProgrammaticUpdate := true
      widget := applyViewport vendor p.widget g
      settleTimers := (now + 200) :: p.settleTimers }

/-- The `dragstart` listener (src/components/MapPane.tsx line 284 and
analogues). -/
def onDragStart (p : PaneState) : PaneState := { p with isDragging := true }

/-- The `dragend` listener (src/components/MapPane.tsx line 285 and
analogues). -/
def onDragEnd (p : PaneState) : PaneState := { p with isDragging := false }

/-- The callback of the 200 ms settle timeout (src/components/MapPane.tsx
line 362). -/
def settleFire (p : PaneState) : PaneState :=
  { p with isProgrammaticUpdate := false }

/-- What runs on a provider-kind switch (pane teardown): the SDK poll
effect's cleanup clears its interval (src/components/MapPane.tsx lines
103-105) and the reset effect lowers the two refs (lines 110-114).  Nothing
clears the pending settle timeouts: the update effect has no cleanup. -/
def teardown (p : PaneState) : PaneState :=
  { p with
    isDragging := false
    isProgrammaticUpdate := false
    sdkPollActive := false }

/-- The marker effect (src/components/MapPane.tsx lines 378-394): with no
widget it does nothing; otherwise it removes the previous marker and, when a
search position is set, creates a marker there — i.e. the pane's marker
becomes exactly `searchPos`.  The widget viewport is not touched. -/
def markerEffect (p : PaneState) (searchPos : Option Pos) : PaneState :=
  if p.mapInit = false then p else { p with marker := searchPos }

/-- A search result (src/types.ts `SearchResult`): the coordinate strings
`x` (longitude) and `y` (latitude) are modelled as the rationals that
`parseFloat` yields on them. -/
structure SearchResult where
  x : ℚ
  y : ℚ
deriving DecidableEq

/-- The full App-level state of src/App.tsx relevant to search and
fullscreen handling. -/
structure AppState where
  globalState : MapState
  leftConfig : PaneConfig
  rightConfig : PaneConfig
  searchPos : Option Pos
  fullscreenPane : Option Side
  activeSync : Option Side
deriving DecidableEq

/-- `handleSearchSelect` (src/App.tsx lines 57-61): the canonical viewport
becomes the parsed coordinate at zoom 18 and the search marker position
becomes the same coordinate. -/
def handleSearchSelect (app : AppState) (r : SearchResult) : AppState :=
  { app with
    globalState := { lat := r.y, lng := r.x, zoom := 18 }
    searchPos := some { lat := r.y, lng := r.x } }

/-- `clearSearch` (src/App.tsx lines 63-65): only the search marker position
is reset. -/
def clearSearch (app : AppState) : AppState := { app with searchPos := none }

/-
Concrete states used by witnesses and counterexamples.
-/

/-- A concrete viewport. -/
def vA : MapState := { lat := 37.57, lng := 126.98, zoom := 13 }

/-- Another concrete viewport. -/
def vB : MapState := { lat := 37.58, lng := 126.99, zoom := 14 }

/-- A sync state in which the left pane holds authority. -/
def stLeftAuth : SyncState :=
  { activeSync := some Side.left, globalState := vA, releaseTimers := [30] }

/-- One accepted event from the left pane at time 0. -/
def evsOne : List InputEvent := [{ time := 0, src := Side.left, state := vA }]

/-- Two events from the left pane 40 ms apart, both inside a single 50 ms
quiescence window. -/
def evsTwo : List InputEvent :=
  [{ time := 0, src := Side.left, state := vA },
   { time := 40, src := Side.left, state := vB }]

/-- An idle initialized pane showing the default viewport, whose listeners
were registered at the default viewport. -/
def paneIdle : PaneState :=
  { mapInit := true
    isDragging := false
    isProgrammaticUpdate := false
    widget := { lat := 37.5665, lng := 126.9780, zoom := 13 }
    capturedGlobal := { lat := 37.5665, lng := 126.9780, zoom := 13 }
    marker := none
    settleTimers := []
    sdkPollActive := true }

/-- An initialized pane in the middle of a user drag. -/
def paneDragging : PaneState :=
  { paneIdle with isDragging := true }

/-- The canonical viewport after a later broadcast, far from the
map-initialization viewport. -/
def vLast : MapState := { lat := 37.6, lng := 127.0, zoom := 13 }

/-- A pane after the fleet has converged on `vLast` and the settle window
has passed: the widget echoes the broadcast within 4e-6 degrees, but the
registered listeners still close over the map-init canonical viewport. -/
def paneStaleEcho : PaneState :=
  { paneIdle with
    widget := { lat := 37.6 + 1 / 250000, lng := 127.0, zoom := 13 } }

/-- The sync state right after `vLast` was broadcast and its release
timeout expired. -/
def stAfterBroadcast : SyncState :=
  { activeSync := none, globalState := vLast, releaseTimers := [] }

/-- The initial App state of src/App.tsx. -/
def appInit : AppState :=
  { globalState := { lat := 37.5665, lng := 126.9780, zoom := 13 }
    leftConfig := { type := MapVendor.google, isSatellite := true }
    rightConfig := { type := MapVendor.kakao, isSatellite := false }
    searchPos := some { lat := 37.55, lng := 126.97 }
    fullscreenPane := none
    activeSync := none }

/-- The search result of the spec's scenario, already parsed. -/
def rSel : SearchResult := { x := 126.9779, y := 37.5663 }

/-- A pane currently displaying a search marker. -/
def paneMarked : PaneState :=
  { paneIdle with marker := some { lat := 37.5663, lng := 126.9779 } }

lemma authTimer_initSync : authTimer initSync := by
  intro h
  simp [initSync] at h

lemma authTimer_advanceTo (t : ℕ) (st : SyncState) (h : authTimer st) :
    authTimer (advanceTo t st) := by
  intro hsome
  unfold advanceTo at hsome ⊢
  by_cases hany : st.releaseTimers.any (fun d => decide (d ≤ t)) = true
  · simp [hany] at hsome
  · simp [hany] at hsome ⊢
    have hne := h hsome
    rcases List.exists_mem_of_ne_nil _ hne with ⟨d, hd⟩
    have hlt : t < d := by
      by_contra hge
      push_neg at hge
      exact hany (List.any_eq_true.mpr ⟨d, hd, by simpa using hge⟩)
    exact ⟨d, hd, hlt⟩

lemma authTimer_handleStateChange (now : ℕ) (st : SyncState) (v : MapState)
    (s : Side) (h : authTimer st) :
    authTimer (handleStateChange now st v s).1 := by
  unfold handleStateChange
  by_cases hc : st.activeSync = none ∨ st.activeSync = some s
  · simp [hc, authTimer]
  · simpa [hc] using h

lemma authTimer_stepInput (st : SyncState) (e : InputEvent)
    (h : authTimer st) : authTimer (stepInput st e) :=
  authTimer_handleStateChange _ _ _ _ (authTimer_advanceTo _ _ h)

lemma authTimer_run (st : SyncState) (evs : List InputEvent)
    (h : authTimer st) : authTimer (run st evs) := by
  induction evs generalizing st with
  | nil => exact h
  | cons e es ih => exact ih _ (authTimer_stepInput st e h)

lemma advanceTo_releases (t : ℕ) (st : SyncState) (h : authTimer st)
    (ht : ∀ d ∈ st.releaseTimers, d ≤ t) :
    (advanceTo t st).activeSync = none := by
  unfold advanceTo
  cases hcase : st.activeSync with
  | none =>
      by_cases hany : st.releaseTimers.any (fun d => decide (d ≤ t)) = true
      · simp [hany]
      · simp [hany, hcase]
  | some p =>
      have hne := h (by simp [hcase])
      rcases List.exists_mem_of_ne_nil _ hne with ⟨d, hd⟩
      have hany : st.releaseTimers.any (fun d => decide (d ≤ t)) = true :=
        List.any_eq_true.mpr ⟨d, hd, by simpa using ht d hd⟩
      simp [hany]


/-- C1: while the authority cell holds pane P, a viewport-change event from
a different pane Q is rejected by `handleStateChange`: the canonical
viewport is unchanged, nothing is broadcast, and the cell still holds P. -/
theorem C1_foreign_event_rejected (now : ℕ) (st : SyncState) (v : MapState)
    (p q : Side) (hp : st.activeSync = some p) (hq : q ≠ p) :
    (handleStateChange now st v q).1.globalState = st.globalState ∧
    (handleStateChange now st v q).2 = false ∧
    (handleStateChange now st v q).1.activeSync = some p := by
  have hpq : p ≠ q := fun h => hq h.symm
  simp [handleStateChange, hp, hpq]

/-- C1 witness: a concrete right-pane event while the left pane holds
authority. -/
theorem C1_foreign_event_rejected_witness :
    (handleStateChange 60 stLeftAuth vB Side.right).1.globalState =
      stLeftAuth.globalState ∧
    (handleStateChange 60 stLeftAuth vB Side.right).2 = false ∧
    (handleStateChange 60 stLeftAuth vB Side.right).1.activeSync =
      some Side.left :=
  C1_foreign_event_rejected 60 stLeftAuth vB Side.left Side.right rfl
    (by decide)

/-- C2: in every state reachable by running events from the initial state,
at most one pane holds authority (the cell holds a single optional value);
acquisition only happens from an empty cell (the previous owner, if it was a
different pane, has already released); whenever a pane holds authority a
release timeout is pending; and once every pending timeout has expired with
no further events from the owner, the authority cell is empty. -/
theorem C2_authority_exclusive_and_expires (evs : List InputEvent) (t : ℕ)
    (ht : ∀ d ∈ (run initSync evs).releaseTimers, d ≤ t) :
    (∀ p q : Side, (run initSync evs).activeSync = some p →
        (run initSync evs).activeSync = some q → p = q) ∧
    (∀ (now : ℕ) (st : SyncState) (v : MapState) (q : Side),
        (handleStateChange now st v q).1.activeSync = some q →
        st.activeSync ≠ some q → st.activeSync = none) ∧
    ((run initSync evs).activeSync.isSome →
        (run initSync evs).releaseTimers ≠ []) ∧
    (advanceTo t (run initSync evs)).activeSync = none := by
  refine ⟨?_, ?_, ?_, ?_⟩
  · intro p q hp hq
    rw [hp] at hq
    exact Option.some.inj hq
  · intro now st v q hacc hne
    by_cases hc : st.activeSync = none ∨ st.activeSync = some q
    · rcases hc with h | h
      · exact h
      · exact absurd h hne
    · exact absurd (by simpa [handleStateChange, hc] using hacc) hne
  · exact authTimer_run _ _ authTimer_initSync
  · exact advanceTo_releases t _ (authTimer_run _ _ authTimer_initSync) ht

/-- C2 witness: one accepted left-pane event at time 0; at time 50 its
release timeout has expired and the cell is empty. -/
theorem C2_authority_exclusive_and_expires_witness :
    (∀ d ∈ (run initSync evsOne).releaseTimers, d ≤ 50) ∧
    (advanceTo 50 (run initSync evsOne)).activeSync = none :=
  ⟨by decide, (C2_authority_exclusive_and_expires evsOne 50 (by decide)).2.2.2⟩

/-- C3: the claim fails on the code.  `setupMapListeners` runs only from
the SDK-init effect (deps `[config.type]`), so the registered listeners
compare events against the canonical viewport captured at map-init time,
not against the last broadcast.  Concretely: the canonical viewport has
moved from the init value (37.5665, 126.9780, 13) to vLast = (37.6, 127.0,
13); an echo event 4e-6 degrees from vLast with equal zoom — which the
claim says produces no emission — is compared by the installed listener
against the stale init-time viewport (diff 0.0335 > 1e-5), `shouldUpdate`
returns true, the pane emits, and the App accepts and broadcasts, issuing
further applyViewport calls on the other panes. -/
theorem C3_stale_closure_emits :
    (|paneStaleEcho.widget.lat - vLast.lat| < epsilon ∧
     |paneStaleEcho.widget.lng - vLast.lng| < epsilon ∧
     paneStaleEcho.widget.zoom = vLast.zoom) ∧
    shouldUpdate paneStaleEcho.isProgrammaticUpdate
      paneStaleEcho.capturedGlobal paneStaleEcho.widget.lat
      paneStaleEcho.widget.lng paneStaleEcho.widget.zoom = true ∧
    installedHandleUpdate paneStaleEcho = some paneStaleEcho.widget ∧
    (emitToApp 300 stAfterBroadcast Side.left
      (installedHandleUpdate paneStaleEcho)).2 = true := by
  have hs : shouldUpdate paneStaleEcho.isProgrammaticUpdate
      paneStaleEcho.capturedGlobal paneStaleEcho.widget.lat
      paneStaleEcho.widget.lng paneStaleEcho.widget.zoom = true := by
    norm_num [shouldUpdate, paneStaleEcho, paneIdle, epsilon, abs_lt]
  have hemit : installedHandleUpdate paneStaleEcho =
      some paneStaleEcho.widget := by
    simp [installedHandleUpdate, handleUpdate, hs]
  refine ⟨⟨?_, ?_, ?_⟩, hs, hemit, ?_⟩
  · norm_num [paneStaleEcho, paneIdle, vLast, epsilon, abs_lt]
  · norm_num [paneStaleEcho, paneIdle, vLast, epsilon, abs_lt]
  · norm_num [paneStaleEcho, paneIdle, vLast]
  · rw [hemit]
    simp [emitToApp, handleStateChange, stAfterBroadcast]

/-- C5: for every canonical zoom z in the Kakao provider's valid range (the
levels 1..14 correspond to canonical zooms 6..19; the hypothesis 5 ≤ z ≤ 20
covers that range with a one-quantum margin on both sides), the round trip
through the Kakao level conversion moves z by at most one native level. -/
theorem C5_kakao_zoom_roundtrip (z : ℚ) (h1 : 5 ≤ z) (h2 : z ≤ 20) :
    |kakaoToZoom (zoomToKakao z) - z| ≤ 1 := by
  unfold kakaoToZoom zoomToKakao
  rcases le_total z 6 with hz6 | hz6
  · have hmin : min (14:ℚ) (20 - z) = 14 := min_eq_left (by linarith)
    have hmax : max (1:ℚ) (14:ℚ) = 14 := by norm_num
    rw [hmin, hmax]
    have h6 : max (3:ℚ) (min 20 (20 - 14)) = 6 := by norm_num
    rw [h6, abs_le]
    constructor <;> linarith
  · rcases le_total z 19 with hz19 | hz19
    · have hmin : min (14:ℚ) (20 - z) = 20 - z := min_eq_right (by linarith)
      have hmax : max (1:ℚ) (20 - z) = 20 - z := max_eq_right (by linarith)
      rw [hmin, hmax]
      have hmin2 : min (20:ℚ) (20 - (20 - z)) = 20 - (20 - z) :=
        min_eq_right (by linarith)
      have hmax2 : max (3:ℚ) (20 - (20 - z)) = 20 - (20 - z) :=
        max_eq_right (by linarith)
      rw [hmin2, hmax2, abs_le]
      constructor <;> linarith
    · have hmin : min (14:ℚ) (20 - z) = 20 - z := min_eq_right (by linarith)
      have hmax : max (1:ℚ) (20 - z) = 1 := max_eq_left (by linarith)
      rw [hmin, hmax]
      have h19 : max (3:ℚ) (min 20 (20 - 1)) = 19 := by norm_num
      rw [h19, abs_le]
      constructor <;> linarith

/-- C5 witness: the Kakao round trip at canonical zoom 13 stays within one
level. -/
theorem C5_kakao_zoom_roundtrip_witness :
    ((5:ℚ) ≤ 13 ∧ (13:ℚ) ≤ 20) ∧ |kakaoToZoom (zoomToKakao 13) - 13| ≤ 1 :=
  ⟨⟨by norm_num, by norm_num⟩,
    C5_kakao_zoom_roundtrip 13 (by norm_num) (by norm_num)⟩

/-- C4 counterexample: two accepted left-pane events at times 0 and 40 (a
gap of 40 ms, shorter than the 50 ms window).  The claim says the second
event resets the quiescence timer, keeping the left pane authoritative until
40 + 50 = 90 ms; but the timeout scheduled by the first event is never
cleared, so at time 50 (inside the claimed ownership span, since 50 < 90)
the authority cell is already empty. -/
theorem C4_counterexample_release_despite_events :
    (advanceTo 50 (run initSync evsTwo)).activeSync = none ∧ 50 < 40 + 50 := by
  constructor
  · decide
  · decide

lemma handleStateChange_accept (now : ℕ) (s : SyncState) (v : MapState)
    (p : Side) (h : s.activeSync = none ∨ s.activeSync = some p) :
    handleStateChange now s v p =
      ({ activeSync := some p
         globalState := v
         releaseTimers := (now + 50) :: s.releaseTimers }, true) := by
  simp [handleStateChange, h]

lemma handleStateChange_accepted_guard (now : ℕ) (s : SyncState)
    (v : MapState) (p : Side) (h : (handleStateChange now s v p).2 = true) :
    s.activeSync = none ∨ s.activeSync = some p := by
  by_cases hc : s.activeSync = none ∨ s.activeSync = some p
  · exact hc
  · simp [handleStateChange, hc] at h

lemma stepInput_accept (s : SyncState) (t : ℕ) (p : Side) (v : MapState)
    (h : (advanceTo t s).activeSync = none ∨
      (advanceTo t s).activeSync = some p) :
    stepInput s { time := t, src := p, state := v } =
      { activeSync := some p
        globalState := v
        releaseTimers := (t + 50) :: (advanceTo t s).releaseTimers } := by
  show (handleStateChange t (advanceTo t s) v p).1 = _
  rw [handleStateChange_accept t (advanceTo t s) v p h]

lemma advanceTo_activeSync_cases (t : ℕ) (s : SyncState) :
    (advanceTo t s).activeSync = none ∨
      (advanceTo t s).activeSync = s.activeSync := by
  unfold advanceTo
  by_cases hany : (s.releaseTimers.any fun d => decide (d ≤ t)) = true
  · left
    simp [hany]
  · right
    simp [hany]

lemma advanceTo_releaseTimers (t : ℕ) (s : SyncState) :
    (advanceTo t s).releaseTimers =
      s.releaseTimers.filter (fun d => decide (t < d)) := rfl

lemma advanceTo_none_of_mem (t : ℕ) (s : SyncState) (d : ℕ)
    (hd : d ∈ s.releaseTimers) (hle : d ≤ t) :
    (advanceTo t s).activeSync = none := by
  unfold advanceTo
  have hany : (s.releaseTimers.any fun x => decide (x ≤ t)) = true :=
    List.any_eq_true.mpr ⟨d, hd, by simpa using hle⟩
  simp [hany]

/-- C4 amended: an accepted event from pane P while P is (or becomes)
authoritative schedules an additional 50 ms release timeout but does not
cancel the earlier one: after a first accepted event at time t and a second
event at time t2 inside the window, the timeout t + 50 is still pending, P
is still authoritative, and advancing to t + 50 empties the authority cell
(P then re-acquires on its next event, since acceptance from an empty cell
always succeeds). -/
theorem C4_amended_timer_not_reset (st : SyncState) (t t2 : ℕ) (p : Side)
    (v v2 : MapState)
    (hacc : (handleStateChange t (advanceTo t st) v p).2 = true)
    (h12 : t < t2) (h2w : t2 < t + 50) :
    (t + 50) ∈ (stepInput (stepInput st { time := t, src := p, state := v })
        { time := t2, src := p, state := v2 }).releaseTimers ∧
    (stepInput (stepInput st { time := t, src := p, state := v })
        { time := t2, src := p, state := v2 }).activeSync = some p ∧
    (advanceTo (t + 50) (stepInput (stepInput st { time := t, src := p, state := v })
        { time := t2, src := p, state := v2 })).activeSync = none := by
  have hg1 := handleStateChange_accepted_guard t (advanceTo t st) v p hacc
  have hstep1 := stepInput_accept st t p v hg1
  have hguard : (advanceTo t2 (stepInput st { time := t, src := p, state := v })).activeSync = none ∨
      (advanceTo t2 (stepInput st { time := t, src := p, state := v })).activeSync = some p := by
    rcases advanceTo_activeSync_cases t2
        (stepInput st { time := t, src := p, state := v }) with h | h
    · exact Or.inl h
    · right
      rw [h, hstep1]
  have hstep2 := stepInput_accept
    (stepInput st { time := t, src := p, state := v }) t2 p v2 hguard
  have hmem1 : (t + 50) ∈
      (stepInput st { time := t, src := p, state := v }).releaseTimers := by
    rw [hstep1]
    exact List.mem_cons_self _ _
  have hmem : (t + 50) ∈
      (stepInput (stepInput st { time := t, src := p, state := v })
        { time := t2, src := p, state := v2 }).releaseTimers := by
    rw [hstep2]
    refine List.mem_cons_of_mem _ ?_
    rw [advanceTo_releaseTimers]
    exact List.mem_filter.mpr ⟨hmem1, by simpa using h2w⟩
  refine ⟨hmem, ?_, ?_⟩
  · rw [hstep2]
  · exact advanceTo_none_of_mem _ _ _ hmem (le_refl _)

/-- C4 witness for the amended claim: the two concrete left-pane events of
the counterexample. -/
theorem C4_amended_timer_not_reset_witness :
    ((handleStateChange 0 (advanceTo 0 initSync) vA Side.left).2 = true ∧
     (0:ℕ) < 40 ∧ 40 < 0 + 50) ∧
    ((0 + 50) ∈ (stepInput (stepInput initSync { time := 0, src := Side.left, state := vA })
        { time := 40, src := Side.left, state := vB }).releaseTimers ∧
     (stepInput (stepInput initSync { time := 0, src := Side.left, state := vA })
        { time := 40, src := Side.left, state := vB }).activeSync = some Side.left ∧
     (advanceTo (0 + 50) (stepInput (stepInput initSync { time := 0, src := Side.left, state := vA })
        { time := 40, src := Side.left, state := vB })).activeSync = none) :=
  ⟨⟨by decide, by decide, by decide⟩,
    C4_amended_timer_not_reset initSync 0 40 Side.left vA vB (by decide)
      (by decide) (by decide)⟩

/-- C6: while a pane is inside a drag span (after `dragstart`), the
programmatic update effect leaves the pane completely untouched — the
inbound canonical viewport is not pushed into the widget — and after the
span ends (`dragend`) the effect applies the inbound viewport again. -/
theorem C6_drag_suppresses_inbound (vendor : MapVendor) (now : ℕ)
    (p : PaneState) (g : MapState) (hm : p.mapInit = true) :
    updateEffect vendor now (onDragStart p) g = onDragStart p ∧
    (updateEffect vendor now (onDragEnd p) g).widget =
      applyViewport vendor p.widget g := by
  constructor
  · unfold updateEffect onDragStart
    by_cases hmi : p.mapInit = false
    · simp [hmi]
    · simp [hmi]
  · unfold updateEffect onDragEnd
    simp [hm]

/-- C6 witness: the idle initialized pane, dragging and then released, with
the Google provider. -/
theorem C6_drag_suppresses_inbound_witness :
    paneIdle.mapInit = true ∧
    (updateEffect MapVendor.google 5 (onDragStart paneIdle) vA =
      onDragStart paneIdle ∧
    (updateEffect MapVendor.google 5 (onDragEnd paneIdle) vA).widget =
      applyViewport MapVendor.google paneIdle.widget vA) :=
  ⟨rfl, C6_drag_suppresses_inbound MapVendor.google 5 paneIdle vA rfl⟩

/-- C7: a programmatic viewport application to an initialized, non-dragging
pane raises `isProgrammaticUpdate`, and any widget event delivered while
that flag is raised (whatever viewport it reports and whatever canonical
state the pane sees) produces no `onStateChange` emission. -/
theorem C7_programmatic_apply_no_echo (vendor : MapVendor) (now : ℕ)
    (p : PaneState) (g : MapState) (hm : p.mapInit = true)
    (hd : p.isDragging = false) :
    (updateEffect vendor now p g).isProgrammaticUpdate = true ∧
    (∀ w g2 : MapState,
      handleUpdate { updateEffect vendor now p g with widget := w } g2 = none) := by
  have h1 : (updateEffect vendor now p g).isProgrammaticUpdate = true := by
    simp [updateEffect, hm, hd]
  refine ⟨h1, ?_⟩
  intro w g2
  unfold handleUpdate shouldUpdate
  simp [h1]

/-- C7 witness: the idle initialized pane with the Google provider. -/
theorem C7_programmatic_apply_no_echo_witness :
    (paneIdle.mapInit = true ∧ paneIdle.isDragging = false) ∧
    ((updateEffect MapVendor.google 5 paneIdle vA).isProgrammaticUpdate = true ∧
     (∀ w g2 : MapState,
       handleUpdate { updateEffect MapVendor.google 5 paneIdle vA with
         widget := w } g2 = none)) :=
  ⟨⟨rfl, rfl⟩, C7_programmatic_apply_no_echo MapVendor.google 5 paneIdle vA rfl rfl⟩

/-- C8 counterexample: an initialized pane that is inside a user drag span
when the search selection is broadcast.  The update effect bails out on
`isDragging`, so the pane's widget stays at the old viewport (zoom 13, not
18): not every initialized pane converges. -/
theorem C8_counterexample_dragging_pane :
    paneDragging.mapInit = true ∧
    (handleSearchSelect appInit rSel).globalState =
      { lat := 37.5663, lng := 126.9779, zoom := 18 } ∧
    (markerEffect (updateEffect MapVendor.google 0 paneDragging
        (handleSearchSelect appInit rSel).globalState)
        (handleSearchSelect appInit rSel).searchPos).widget.zoom ≠ 18 := by
  refine ⟨rfl, ?_, ?_⟩
  · norm_num [handleSearchSelect, appInit, rSel]
  · norm_num [markerEffect, updateEffect, paneDragging, paneIdle,
      handleSearchSelect, appInit, rSel]

/-- C8 amended: a search selection sets the canonical viewport to the parsed
coordinate at zoom 18 and the search-marker position to the same coordinate;
every pane whose map is initialized and which is not inside a user
direct-manipulation span converges to that viewport (center within the Kakao
update effect's 1e-6 write threshold, zoom within one provider quantum) and
displays a marker at the same coordinate. -/
theorem C8_amended_search_select (app : AppState) (r : SearchResult)
    (vendor : MapVendor) (now : ℕ) (p : PaneState)
    (hm : p.mapInit = true) (hd : p.isDragging = false) :
    (handleSearchSelect app r).globalState =
      { lat := r.y, lng := r.x, zoom := 18 } ∧
    (handleSearchSelect app r).searchPos = some { lat := r.y, lng := r.x } ∧
    |(markerEffect (updateEffect vendor now p (handleSearchSelect app r).globalState)
        (handleSearchSelect app r).searchPos).widget.lat - r.y| ≤ 1 / 1000000 ∧
    |(markerEffect (updateEffect vendor now p (handleSearchSelect app r).globalState)
        (handleSearchSelect app r).searchPos).widget.lng - r.x| ≤ 1 / 1000000 ∧
    |(markerEffect (updateEffect vendor now p (handleSearchSelect app r).globalState)
        (handleSearchSelect app r).searchPos).widget.zoom - 18| ≤ 1 ∧
    (markerEffect (updateEffect vendor now p (handleSearchSelect app r).globalState)
        (handleSearchSelect app r).searchPos).marker =
      some { lat := r.y, lng := r.x } := by
  have hg : (handleSearchSelect app r).globalState =
      { lat := r.y, lng := r.x, zoom := 18 } := rfl
  have hsp : (handleSearchSelect app r).searchPos =
      some { lat := r.y, lng := r.x } := rfl
  have hup : updateEffect vendor now p (handleSearchSelect app r).globalState =
      { p with
        isProgrammaticUpdate := true
        widget := applyViewport vendor p.widget
          { lat := r.y, lng := r.x, zoom := 18 }
        settleTimers := (now + 200) :: p.settleTimers } := by
    rw [hg]
    simp [updateEffect, hm, hd]
  have hmk : markerEffect (updateEffect vendor now p
      (handleSearchSelect app r).globalState)
      (handleSearchSelect app r).searchPos =
      { p with
        isProgrammaticUpdate := true
        widget := applyViewport vendor p.widget
          { lat := r.y, lng := r.x, zoom := 18 }
        settleTimers := (now + 200) :: p.settleTimers
        marker := some { lat := r.y, lng := r.x } } := by
    rw [hup, hsp]
    simp [markerEffect, hm]
  rw [hmk]
  refine ⟨hg, hsp, ?_, ?_, ?_, rfl⟩ <;> rcases vendor with _ | _ | _
  · simp [applyViewport]
  · by_cases hmv : |p.widget.lat - r.y| > 1 / 1000000 ∨
        |p.widget.lng - r.x| > 1 / 1000000
    · simp only [applyViewport]
      rw [if_pos (by simpa using hmv)]
      simp
    · simp only [applyViewport]
      rw [if_neg (by simpa using hmv)]
      push_neg at hmv
      simpa using hmv.1
  · simp [applyViewport]
  · simp [applyViewport]
  · by_cases hmv : |p.widget.lat - r.y| > 1 / 1000000 ∨
        |p.widget.lng - r.x| > 1 / 1000000
    · simp only [applyViewport]
      rw [if_pos (by simpa using hmv)]
      simp
    · simp only [applyViewport]
      rw [if_neg (by simpa using hmv)]
      push_neg at hmv
      simpa using hmv.2
  · simp [applyViewport]
  · simp [applyViewport]
  · simp only [applyViewport]
    have hkz : kakaoToZoom (zoomToKakao 18) = 18 := by
      norm_num [kakaoToZoom, zoomToKakao]
    by_cases hmv : |p.widget.lat - r.y| > 1 / 1000000 ∨
        |p.widget.lng - r.x| > 1 / 1000000
    · rw [if_pos (by simpa using hmv)]
      simp [hkz]
    · rw [if_neg (by simpa using hmv)]
      simp [hkz]
  · simp [applyViewport]

/-- C8 witness for the amended claim: the spec's scenario viewport applied
to the idle initialized Google pane. -/
theorem C8_amended_search_select_witness :
    (paneIdle.mapInit = true ∧ paneIdle.isDragging = false) ∧
    ((handleSearchSelect appInit rSel).globalState =
      { lat := rSel.y, lng := rSel.x, zoom := 18 } ∧
    (handleSearchSelect appInit rSel).searchPos =
      some { lat := rSel.y, lng := rSel.x } ∧
    |(markerEffect (updateEffect MapVendor.google 0 paneIdle
        (handleSearchSelect appInit rSel).globalState)
        (handleSearchSelect appInit rSel).searchPos).widget.lat - rSel.y| ≤ 1 / 1000000 ∧
    |(markerEffect (updateEffect MapVendor.google 0 paneIdle
        (handleSearchSelect appInit rSel).globalState)
        (handleSearchSelect appInit rSel).searchPos).widget.lng - rSel.x| ≤ 1 / 1000000 ∧
    |(markerEffect (updateEffect MapVendor.google 0 paneIdle
        (handleSearchSelect appInit rSel).globalState)
        (handleSearchSelect appInit rSel).searchPos).widget.zoom - 18| ≤ 1 ∧
    (markerEffect (updateEffect MapVendor.google 0 paneIdle
        (handleSearchSelect appInit rSel).globalState)
        (handleSearchSelect appInit rSel).searchPos).marker =
      some { lat := rSel.y, lng := rSel.x }) :=
  ⟨⟨rfl, rfl⟩,
    C8_amended_search_select appInit rSel MapVendor.google 0 paneIdle rfl rfl⟩

/-- C9: the claim fails on the code.  The update effect schedules a 200 ms
settle timeout but returns no cleanup, so after a provider-kind switch
(teardown: the SDK poll interval is cleared and the refs reset) the settle
timeout is still pending; when it later fires on the reinitialized pane it
lowers `isProgrammaticUpdate`, mutating a pane that has been torn down and
rebuilt. -/
theorem C9_settle_timer_survives_teardown :
    (teardown (updateEffect MapVendor.google 100 paneIdle vB)).settleTimers =
      [300] ∧
    (teardown (updateEffect MapVendor.google 100 paneIdle vB)).sdkPollActive =
      false ∧
    (settleFire { teardown (updateEffect MapVendor.google 100 paneIdle vB) with
        isProgrammaticUpdate := true }).isProgrammaticUpdate = false := by
  refine ⟨rfl, rfl, rfl⟩

/-- C10: `clearSearch` resets only the search-marker position; the canonical
viewport, both pane configurations, the fullscreen selection and the
authority cell are unchanged, and an initialized pane's marker effect then
removes the marker without touching the widget viewport. -/
theorem C10_clearSearch_only_marker (app : AppState) (p : PaneState)
    (hm : p.mapInit = true) :
    (clearSearch app).searchPos = none ∧
    (clearSearch app).globalState = app.globalState ∧
    (clearSearch app).leftConfig = app.leftConfig ∧
    (clearSearch app).rightConfig = app.rightConfig ∧
    (clearSearch app).fullscreenPane = app.fullscreenPane ∧
    (clearSearch app).activeSync = app.activeSync ∧
    (markerEffect p none).marker = none ∧
    (markerEffect p none).widget = p.widget := by
  refine ⟨rfl, rfl, rfl, rfl, rfl, rfl, ?_, ?_⟩ <;> simp [markerEffect, hm]

/-- C10 witness: clearing the search on the initial App state and a pane
showing a marker. -/
theorem C10_clearSearch_only_marker_witness :
    paneMarked.mapInit = true ∧
    ((clearSearch appInit).searchPos = none ∧
    (clearSearch appInit).globalState = appInit.globalState ∧
    (clearSearch appInit).leftConfig = appInit.leftConfig ∧
    (clearSearch appInit).rightConfig = appInit.rightConfig ∧
    (clearSearch appInit).fullscreenPane = appInit.fullscreenPane ∧
    (clearSearch appInit).activeSync = appInit.activeSync ∧
    (markerEffect paneMarked none).marker = none ∧
    (markerEffect paneMarked none).widget = paneMarked.widget) :=
  ⟨rfl, C10_clearSearch_only_marker appInit paneMarked rfl⟩
